import Mathlib

/-!
Verification of the IdleRPG core engine (the `IdleRPG` class of
martindale/idlerpg): a shallow embedding of the game-state store, profile
hydration, the transfer handler, the penalty and reward procedures, the
tick loop, the player enumeration and the heartbeat scheduling, together
with proofs about the specified properties.

Modelling conventions.  JavaScript numbers are exact rationals together
with a `NaN` marker; machine floats are idealized as exact arithmetic (all
numbers in the verified properties are small).  JSON objects stored in the
state tree are records whose every field is optional (a `none` field is an
absent property).  Promise rejections that a caller catches are `Option`
or `Except` failure values.  External collaborators (chat services, the
encounter content generator, the entity level derivation) are parameters
of the functions that consult them.
-/

/-- A JavaScript number: an exact rational, or `NaN`.  (`Infinity` never
arises on the modelled code paths.) -/
inductive JsNum
  | num (q : ℚ)
  | nan
deriving DecidableEq

/-- Truthiness of a JavaScript number: `0` and `NaN` are falsy. -/
def JsNum.truthy : JsNum → Bool
  | num q => decide (q ≠ 0)
  | nan => false

/-- `+` on JavaScript numbers: `NaN` is absorbing. -/
def JsNum.add : JsNum → JsNum → JsNum
  | num a, num b => num (a + b)
  | _, _ => nan

/-- `-` on JavaScript numbers: `NaN` is absorbing. -/
def JsNum.sub : JsNum → JsNum → JsNum
  | num a, num b => num (a - b)
  | _, _ => nan

/-- `x < b` on JavaScript numbers: every comparison with `NaN` is false. -/
def JsNum.ltQ : JsNum → ℚ → Bool
  | num a, b => decide (a < b)
  | nan, _ => false

/-- Truncation toward zero, the numeric effect of JavaScript `parseInt`
applied to a (non-exponentially rendered) number. -/
def jsTrunc (q : ℚ) : ℤ := if 0 ≤ q then ⌊q⌋ else ⌈q⌉

/-- `parseInt` applied to a number: the number is rendered to a string and
its integer prefix reparsed, truncating toward zero; `NaN` renders as
`"NaN"` and reparses as `NaN`. -/
def JsNum.parseIntOf : JsNum → JsNum
  | num q => num (jsTrunc q)
  | nan => nan

/-- The decimal fragment of JavaScript `parseInt` on a string token: skip
leading whitespace, read an optional sign, then a maximal run of decimal
digits; no digits yields `NaN`.  The result is always integer-valued. -/
def parseIntStr (s : String) : JsNum :=
  let t := s.data.dropWhile Char.isWhitespace
  let signed : Bool × List Char :=
    match t with
    | '-' :: r => (true, r)
    | '+' :: r => (false, r)
    | r => (false, r)
  let ds := signed.2.takeWhile Char.isDigit
  if ds.isEmpty then .nan
  else
    let n : ℕ := ds.foldl (fun a c => a * 10 + (c.toNat - '0'.toNat)) 0
    .num (if signed.1 then -(n : ℚ) else (n : ℚ))

/-- JavaScript `String.prototype.split` with a single-character separator,
on the character list. -/
def splitCharList (sep : Char) : List Char → List (List Char)
  | [] => [[]]
  | c :: cs =>
    let r := splitCharList sep cs
    if c = sep then [] :: r
    else
      match r with
      | [] => [[c]]
      | h :: t => (c :: h) :: t

/-- JavaScript `s.split(sep)` for a single-character separator. -/
def jsSplit (s : String) (sep : Char) : List String :=
  (splitCharList sep s.data).map (fun l => ⟨l⟩)

/-- Character expansion of `pointer.escape`: `~` becomes `~0` and `/`
becomes `~1`. -/
def escapeChar (c : Char) : List Char :=
  if c = '~' then ['~', '0'] else if c = '/' then ['~', '1'] else [c]

/-- `pointer.escape`, used to turn a canonical id into a single JSON
pointer segment. -/
def pointerEscape (s : String) : String :=
  ⟨s.data.foldr (fun c acc => escapeChar c ++ acc) []⟩

/-- An inventory or equipment item; only the name is relevant to the
verified properties. -/
structure Item where
  name : String
deriving DecidableEq

/-- The `equipment` sub-object of a profile; `weapon` is nullable. -/
structure Equipment where
  weapon : Option Item := none
deriving DecidableEq

/-- A value stored under `/players/<escaped-id>` in the state tree (or
read back from it): a JSON object in which every property may be absent
(`none`).  `weapon` is the top-level `weapon` property consulted by
hydration, distinct from `equipment.weapon`. -/
structure Stored where
  id : Option String := none
  name : Option String := none
  health : Option JsNum := none
  stamina : Option JsNum := none
  experience : Option JsNum := none
  weapon : Option (Option Item) := none
  equipment : Option Equipment := none
  inventory : Option (List Item) := none
  presence : Option String := none
  effects : Option (List String) := none
  wealth : Option JsNum := none
  cooldown : Option JsNum := none
deriving DecidableEq

/-- The in-memory player object built by `_getProfile`.  The fields are
exactly the keys of the object literal in `_getProfile`; that literal
assigns no `cooldown` property, recorded here by `cooldown := none`
(`cooldown` models the dynamic property later read and written by
`_computeRound` and `penalize`). -/
structure Profile where
  id : String
  name : Option String
  type : String
  health : ℚ
  stamina : ℚ
  experience : ℚ
  equipment : Equipment
  inventory : List Item
  presence : String
  effects : List String
  wealth : ℚ
  cooldown : Option JsNum := none
deriving DecidableEq

/-- `x || d` for an optional stored number: an absent, zero or `NaN`
property falls back to the default. -/
def jsNumOr (x : Option JsNum) (d : ℚ) : ℚ :=
  match x with
  | some (.num q) => if q = 0 then d else q
  | _ => d

/-- `x || d` for an optional stored string: absent or empty falls back. -/
def jsStrOr (x : Option String) (d : String) : String :=
  match x with
  | some s => if s = "" then d else s
  | none => d

/-- Truthiness of an optional (possibly absent) numeric property. -/
def jsPropTruthy : Option JsNum → Bool
  | some v => v.truthy
  | none => false

/-- `x < b` for an optional numeric property: comparison on an absent
property (`undefined`) is false. -/
def jsPropLtQ : Option JsNum → ℚ → Bool
  | some v, b => v.ltQ b
  | none, _ => false

/-- Identifier canonicalization in `_getProfile`: a single-segment id is
rewritten to `local/users/<id>`; anything else is `parts.join('/')` of the
original split, i.e. the id unchanged. -/
def canonicalPath (id : String) : String :=
  if (jsSplit id '/').length = 1 then "local/users/" ++ id else id

/-- The `/players` subtree of the game state, keyed by escaped canonical
id, together with a counter of `commit()` calls.  Only this subtree is
touched by the verified operations. -/
structure State where
  players : String → Option Stored
  commits : ℕ

/-- The freshly initialized state: an empty `players` map. -/
def emptyState : State := { players := fun _ => none, commits := 0 }

/-- Point update of the players map (a single `replace`/`add` at key
`k`). -/
def updateMap (f : String → Option Stored) (k : String) (v : Option Stored) :
    String → Option Stored :=
  fun x => if x = k then v else f x

/-- `commit()`: serializes and persists the whole tree; modelled by
counting the commit. -/
def State.commit (st : State) : State := { st with commits := st.commits + 1 }

/-- The stored value hydration starts from, at the canonical path of an
id (the defaulted empty object when nothing is stored). -/
def storedAt (st : State) (id : String) : Stored :=
  (st.players (pointerEscape (canonicalPath id))).getD {}

/-- The hydration performed by `_getProfile`: overlay the stored value on
the base entity and default every missing or falsy field.  Modelled from
the spec: the base object is `new Entity({ id: path })` (`entity.js` is not
under `src/`); per the spec the entity model only derives read-only
attributes from the fields it is given, so the base contributes exactly
the `id` property. -/
def hydrate (path : String) (prior : Option Stored) : Profile :=
  let d := prior.getD {}
  { id := d.id.getD path
    name := d.name
    type := "Player"
    health := jsNumOr d.health 100
    stamina := jsNumOr d.stamina 100
    experience := jsNumOr d.experience 0
    equipment := { weapon := match d.weapon with
                   | some (some it) => some it
                   | _ => none }
    inventory := d.inventory.getD []
    presence := jsStrOr d.presence "offline"
    effects := d.effects.getD []
    wealth := jsNumOr d.wealth 0
    cooldown := none }

/-- `_getProfile`: canonicalize the id, read any prior stored value at the
escaped path (a read failure is caught and treated as no data), and
hydrate. -/
def getProfile (st : State) (id : String) : Profile :=
  let path := canonicalPath id
  hydrate path (st.players (pointerEscape path))

/-- How the in-memory profile object looks when stored wholesale (by
`_registerPlayer` or the reward write-back) and later read back: every
key of the profile literal is present; there is no top-level `weapon`
property. -/
def Profile.toStored (p : Profile) : Stored :=
  { id := some p.id
    name := p.name
    health := some (.num p.health)
    stamina := some (.num p.stamina)
    experience := some (.num p.experience)
    weapon := none
    equipment := some p.equipment
    inventory := some p.inventory
    presence := some p.presence
    effects := some p.effects
    wealth := some (.num p.wealth)
    cooldown := p.cooldown }

/-- The canonical storage id computed by `_registerPlayer`:
`[parts[0], 'users', parts[2]].join('/')`, where a single-segment split
was first replaced by `['local', 'users', player]` (the player object
itself, which joins as its string form). -/
def registrationId (id : String) : String :=
  let parts :=
    if (jsSplit id '/').length = 1 then ["local", "users", "[object Object]"]
    else jsSplit id '/'
  parts.getD 0 "" ++ "/users/" ++ parts.getD 2 ""

/-- `_registerPlayer`: store the whole player object at its canonical
path, commit, and return the freshly stored value (`none` models the
error return for a player without an id). -/
def registerPlayer (st : State) (p : Profile) : State × Option Stored :=
  if p.id = "" then (st, none)
  else
    let key := pointerEscape (registrationId p.id)
    let st1 : State :=
      { st with players := updateMap st.players key (some p.toStored) }
    let st2 := st1.commit
    (st2, st2.players key)

/-- Events emitted by the engine that the properties observe. -/
inductive GameEvent
  | announce (text : String)
  | whisper (target text : String)
  | tickDone
deriving DecidableEq

/-- Module-level constant `PER_TICK_CAPITAL = 10`. -/
def PER_TICK_CAPITAL : ℚ := 10

/-- Module-level constant `PER_TICK_EXPERIENCE = 10`. -/
def PER_TICK_EXPERIENCE : ℚ := 10

/-- The configuration fields consulted by the verified operations. -/
structure Config where
  PER_TICK_CAPITAL : ℚ
  PER_TICK_EXPERIENCE : ℚ
deriving DecidableEq

/-- Caller-supplied configuration overrides handed to the constructor. -/
structure ConfigOverrides where
  PER_TICK_CAPITAL : Option ℚ := none
  PER_TICK_EXPERIENCE : Option ℚ := none
deriving DecidableEq

/-- The constructor defaulting `Object.assign({..defaults..}, config)`. -/
def mkConfig (o : ConfigOverrides) : Config :=
  { PER_TICK_CAPITAL := o.PER_TICK_CAPITAL.getD PER_TICK_CAPITAL
    PER_TICK_EXPERIENCE := o.PER_TICK_EXPERIENCE.getD PER_TICK_EXPERIENCE }

/-- Truthiness of an optional string property: absent or empty is falsy. -/
def jsStrFalsy : Option String → Bool
  | none => true
  | some s => decide (s = "")

/-- The distinct outcomes of `_handleTransferRequest`; each constructor
corresponds to one of the handler's return statements (`success` is the
final `Balance transferred successfully!` return). -/
inductive TransferOutcome
  | success
  | missingObject
  | missingActor
  | badFormat
  | selfTransfer
  | noWealth
  | insufficient (needed : JsNum)
  | patchFailed
deriving DecidableEq

/-- The target profile path interpolated by the transfer handler. -/
def transferTargetPath (originName tok : String) : String :=
  originName ++ "/users/" ++ tok

/-- Apply the two-operation wealth patch of `_handleTransferRequest` in
order.  A `replace` whose player entry is missing raises (the navigated
parent is `undefined`), which the handler catches; already-applied
earlier operations are not rolled back. -/
def applyWealthOps (st : State) : List (String × JsNum) → State × Bool
  | [] => (st, false)
  | (k, v) :: rest =>
    match st.players k with
    | none => (st, true)
    | some s =>
      applyWealthOps
        { st with players := updateMap st.players k (some { s with wealth := some v }) }
        rest

/-- `_handleTransferRequest`.  The `typeof` string checks hold by typing;
the `if (!target)` check is unreachable (a hydrated profile object is
always truthy) and therefore omitted. -/
def handleTransferRequest (st : State) (actorProp objectProp : Option String)
    (originName : String) : TransferOutcome × State :=
  if jsStrFalsy objectProp then (.missingObject, st)
  else if jsStrFalsy actorProp then (.missingActor, st)
  else
    let obj := objectProp.getD ""
    let act := actorProp.getD ""
    let parts := jsSplit obj ' '
    if parts.length ≠ 3 then (.badFormat, st)
    else if (jsSplit act '/').get? 2 = parts.get? 2 then (.selfTransfer, st)
    else
      let actor := getProfile st act
      let target := getProfile st (transferTargetPath originName (parts.getD 2 ""))
      let amount := parseIntStr (parts.getD 1 "")
      let actorID := pointerEscape actor.id
      let targetID := pointerEscape target.id
      if actor.wealth = 0 then (.noWealth, st)
      else if ((JsNum.num actor.wealth).sub amount).parseIntOf.ltQ 0 then
        (.insufficient ((JsNum.num actor.wealth).sub amount).parseIntOf, st)
      else
        let st1 := (registerPlayer st actor).1
        let st2 := (registerPlayer st1 target).1
        let v1 := (JsNum.num actor.wealth).parseIntOf.sub amount.parseIntOf
        let v2 := (JsNum.num target.wealth).parseIntOf.add amount.parseIntOf
        let res := applyWealthOps st2 [(actorID, v1), (targetID, v2)]
        if res.2 then (.patchFailed, res.1)
        else (.success, res.1.commit)

/-- The public announcement emitted by `penalize` (template interpolation
renders an absent name as the string `undefined`). -/
def peaceAnnouncement (name : Option String) : GameEvent :=
  .announce (name.getD "undefined" ++
    " has disrupted the peace!  Penalties have been applied, but life goes on.")

/-- `penalize`: compute `notify` from the pre-violation cooldown, set
`cooldown = 1000` and halve the wealth, patch both fields and commit, then
announce when `notify` was set.  When the player has no stored entry the
first `replace` operation raises before mutating anything and the
rejection propagates (`error`: no patch, no commit, no announcement). -/
def penalize (p : Profile) (st : State) : Except Unit (State × List GameEvent) :=
  let notify := !(jsPropTruthy p.cooldown) || jsPropLtQ p.cooldown 100
  let key := pointerEscape p.id
  match st.players key with
  | none => .error ()
  | some s =>
    let s1 : Stored := { s with cooldown := some (.num 1000) }
    let s2 : Stored := { s1 with wealth := some (.num (p.wealth * (1 / 2))) }
    let st1 : State := { st with players := updateMap st.players key (some s2) }
    let st2 := st1.commit
    .ok (st2, if notify then [peaceAnnouncement p.name] else [])

/-- Modelled from the spec: the entity delta produced by the encounter
resolver (`encounter.js` is not under `src/`); a partial overlay merged
onto the player by `Object.assign`. -/
structure EncDelta where
  name : Option String := none
  health : Option ℚ := none
  experience : Option ℚ := none
  equipment : Option Equipment := none
  inventory : Option (List Item) := none
  wealth : Option ℚ := none
deriving DecidableEq

/-- `Object.assign(player, instance)`: overlay the present delta fields. -/
def applyDelta (p : Profile) (d : EncDelta) : Profile :=
  { p with
    name := match d.name with
            | some n => some n
            | none => p.name
    health := d.health.getD p.health
    experience := d.experience.getD p.experience
    equipment := d.equipment.getD p.equipment
    inventory := d.inventory.getD p.inventory
    wealth := d.wealth.getD p.wealth }

/-- The player object after the encounter merge inside `reward`. -/
def mergeEnc (enc : Option EncDelta) (p : Profile) : Profile :=
  match enc with
  | some d => applyDelta p d
  | none => p

/-- `reward`: merge any encounter delta, add the module-level per-tick
constants to wealth and experience, announce a level increase (`lvl` is
the level derivation of the entity model — modelled from the spec, which
derives the level from experience but gives no formula, so it is kept as
a parameter), write the whole player back with one `replace` at the
player's path, and commit.  The `cfg` parameter is the instance
configuration in scope in the method body; the source consults the module
constants, not `cfg`. -/
def reward (lvl : ℚ → ℕ) (_cfg : Config) (enc : Option EncDelta) (p : Profile)
    (st : State) : State × List GameEvent :=
  let priorLevel := lvl p.experience
  let p1 := mergeEnc enc p
  let p2 : Profile := { p1 with
    wealth := (if p1.wealth = 0 then 0 else p1.wealth) + PER_TICK_CAPITAL
    experience := (if p1.experience = 0 then 0 else p1.experience) + PER_TICK_EXPERIENCE }
  let sampleLevel := lvl p2.experience
  let events :=
    if sampleLevel ≠ 0 ∧ priorLevel < sampleLevel then
      [GameEvent.announce (p2.name.getD "undefined" ++ " has reached level " ++
        toString sampleLevel ++ "!")]
    else []
  let key := pointerEscape p2.id
  let st1 : State := { st with players := updateMap st.players key (some p2.toStored) }
  (st1.commit, events)

/-- `_computeRound`: fetch the profile, relax the cooldown when the
fetched profile has a truthy `cooldown` property (without any floor), and
reward the player when online.  The hydrated profile never carries a
`cooldown` property, so the relaxation branch never fires. -/
def computeRound (lvl : ℚ → ℕ) (cfg : Config) (enc : Option EncDelta)
    (st : State) (playerId : String) : State × List GameEvent :=
  let profile := getProfile st playerId
  let profile1 :=
    if jsPropTruthy profile.cooldown then
      { profile with
        cooldown := some ((profile.cooldown.getD .nan).sub (.num cfg.PER_TICK_CAPITAL)) }
    else profile
  if profile1.presence = "online" then reward lvl cfg enc profile1 st
  else (st, [])

/-- `tick`: fetch the active players (`none` models a rejected fetch,
caught and logged by the handler, leaving `players` undefined so the loop
body never runs), run `_computeRound` for each in order, then emit the
tick-complete signal. -/
def tick (lvl : ℚ → ℕ) (cfg : Config) (enc : String → Option EncDelta)
    (st : State) (fetched : Option (List String)) : State × List GameEvent :=
  let ids := fetched.getD []
  let folded := ids.foldl
    (fun acc pid =>
      let r := computeRound lvl cfg (enc pid) acc.1 pid
      (r.1, acc.2 ++ r.2))
    (st, ([] : List GameEvent))
  (folded.1, folded.2 ++ [GameEvent.tickDone])

/-- A chat service collaborator: its agent identity, member lists per
channel (`none` models a rejected fetch, caught so that the channel's
member loop is skipped), and presence lookup (`none` models a rejected or
absent presence). -/
structure Service where
  agentId : String
  members : String → Option (List String)
  presence : String → Option String

/-- The member loop of `_getPlayers` for one channel.  `none` is the early
`return;` taken as soon as the agent itself appears among the members: it
exits the whole enumeration with an undefined player list. -/
def scanMembers (svcName : String) (svc : Service) :
    State → List String → Option (State × List Stored)
  | st, [] => some (st, [])
  | st, m :: rest =>
    if m = svc.agentId then none
    else
      let profile := getProfile st (svcName ++ "/users/" ++ m)
      let reg := registerPlayer st profile
      match reg.2 with
      | some player =>
        let player1 : Stored := { player with presence := svc.presence m }
        (scanMembers svcName svc reg.1 rest).map (fun r => (r.1, player1 :: r.2))
      | none => scanMembers svcName svc reg.1 rest

/-- The channel loop of `_getPlayers` for one service. -/
def scanChannels (svcName : String) (svc : Service) (channels : List String) :
    State → List String → Option (State × List Stored)
  | st, [] => some (st, [])
  | st, ch :: rest =>
    match svc.members ch with
    | none => scanChannels svcName svc channels st rest
    | some ms =>
      match scanMembers svcName svc st ms with
      | none => none
      | some (st1, ps) =>
        (scanChannels svcName svc channels st1 rest).map
          (fun r => (r.1, ps ++ r.2))

/-- `_getPlayers`: iterate every known service and every monitored
channel, registering and collecting the members; `none` is the bare
`return;` (an `undefined` player list). -/
def getPlayers (channels : List String) :
    State → List (String × Service) → Option (State × List Stored)
  | st, [] => some (st, [])
  | st, (nm, svc) :: rest =>
    match scanChannels nm svc channels st channels with
    | none => none
    | some (st1, ps) =>
      (getPlayers channels st1 rest).map (fun r => (r.1, ps ++ r.2))

/-- `_getActivePlayers`: filter the enumeration down to online players.
When `_getPlayers` returned `undefined`, `players.filter` raises a
`TypeError` (`error` outcome), which `tick` catches.  The stored objects
carry no `alias` property, so the self-alias filter keeps every
element. -/
def getActivePlayers (services : List (String × Service))
    (channels : List String) (st : State) : Except Unit (State × List Stored) :=
  match getPlayers channels st services with
  | none => .error ()
  | some (st1, ps) => .ok (st1, ps.filter (fun p => p.presence = some "online"))

/-- State of the heartbeat installed by `start`: the number of `tick()`
invocations currently in progress (an async `tick` suspends at its
internal awaits, so the interval timer can fire while one is running). -/
structure SchedState where
  running : ℕ
deriving DecidableEq

/-- Scheduling events: the interval timer firing, and a running tick
resolving. -/
inductive SchedEvent
  | timerFire
  | tickFinish
deriving DecidableEq

/-- One scheduling step.  The timer callback is
`function () { try { rpg.tick(); } catch (E) {...} }`: it invokes
`rpg.tick()` unconditionally, consulting no in-progress flag or queue, so
a timer fire always starts one more concurrent tick. -/
def schedStep : SchedState → SchedEvent → SchedState
  | s, .timerFire => { running := s.running + 1 }
  | s, .tickFinish => { running := s.running - 1 }

/-- Run a sequence of scheduling events. -/
def schedRun (s : SchedState) (evs : List SchedEvent) : SchedState :=
  evs.foldl schedStep s

theorem updateMap_self (f : String → Option Stored) (k : String) (v : Option Stored) :
    updateMap f k v k = v := by
  simp [updateMap]

theorem updateMap_other (f : String → Option Stored) (k : String) (v : Option Stored)
    (x : String) (h : x ≠ k) : updateMap f k v x = f x := by
  simp [updateMap, h]

theorem jsTrunc_intCast (k : ℤ) : jsTrunc ((k : ℤ) : ℚ) = k := by
  unfold jsTrunc
  split
  · exact Int.floor_intCast k
  · exact Int.ceil_intCast k

theorem registerPlayer_state (st : State) (p : Profile) (h : p.id ≠ "")
    (h2 : registrationId p.id = p.id) :
    (registerPlayer st p).1 =
      { players := updateMap st.players (pointerEscape p.id) (some p.toStored)
        commits := st.commits + 1 } := by
  simp [registerPlayer, h, h2, State.commit]

/-- C7: a tick during which the active-player fetch failed (`none`) or
returned no players completes (it is a total function of the fetch
outcome) without mutating the state and emits the tick-complete signal
exactly once. -/
theorem c7_tick_empty (lvl : ℚ → ℕ) (cfg : Config) (enc : String → Option EncDelta)
    (st : State) :
    tick lvl cfg enc st none = (st, [GameEvent.tickDone])
    ∧ tick lvl cfg enc st (some []) = (st, [GameEvent.tickDone]) := by
  constructor <;> rfl

/-- C8 counterexample: two timer fires with no tick completion in between
are a reachable event sequence (the interval timer is independent of the
async tick promise), after which two tick invocations are in progress
simultaneously — refuting the claim that a timer firing during an
in-progress tick is suppressed or queued. -/
theorem c8_counterexample :
    (schedRun { running := 0 } [SchedEvent.timerFire, SchedEvent.timerFire]).running = 2
    ∧ 1 < (schedRun { running := 0 } [SchedEvent.timerFire, SchedEvent.timerFire]).running := by
  constructor
  · rfl
  · decide

/-- C8 (amended): the heartbeat callback invokes `rpg.tick()`
unconditionally — whatever the number of ticks already in progress, a
timer fire starts one more concurrent tick; nothing suppresses or queues
it. -/
theorem c8_heartbeat_unconditional (s : SchedState) :
    (schedStep s SchedEvent.timerFire).running = s.running + 1 := rfl

/-- C10: the reward procedure is independent of the caller-supplied
configuration (including any `PER_TICK_CAPITAL` / `PER_TICK_EXPERIENCE`
overrides folded in by the constructor) and adds exactly the module-level
constants, 10 wealth and 10 experience, to the encounter-merged player. -/
theorem c10_reward_constants (lvl : ℚ → ℕ) (o o2 : ConfigOverrides)
    (enc : Option EncDelta) (p : Profile) (st : State) :
    reward lvl (mkConfig o) enc p st = reward lvl (mkConfig o2) enc p st
    ∧ ((reward lvl (mkConfig o) enc p st).1.players
        (pointerEscape (mergeEnc enc p).id)).bind Stored.wealth
      = some (.num ((mergeEnc enc p).wealth + PER_TICK_CAPITAL))
    ∧ ((reward lvl (mkConfig o) enc p st).1.players
        (pointerEscape (mergeEnc enc p).id)).bind Stored.experience
      = some (.num ((mergeEnc enc p).experience + PER_TICK_EXPERIENCE)) := by
  refine ⟨rfl, ?_, ?_⟩
  · simp only [reward, State.commit, updateMap_self, Profile.toStored]
    by_cases h : (mergeEnc enc p).wealth = 0 <;> simp [h]
  · simp only [reward, State.commit, updateMap_self, Profile.toStored]
    by_cases h : (mergeEnc enc p).experience = 0 <;> simp [h]

/-- C4: hydration is total and idempotent in the claimed sense — two
consecutive `getProfile` calls on the same store read the same stored
value and return identical profile objects (the function is pure), and
the returned profile is fully defaulted: every field whose stored
property is absent carries its canonical default, including the always
present `equipment.weapon` (null when no top-level weapon is stored). -/
theorem c4_hydration (st : State) (id : String) :
    getProfile st id = getProfile st id
    ∧ ((storedAt st id).health = none → (getProfile st id).health = 100)
    ∧ ((storedAt st id).stamina = none → (getProfile st id).stamina = 100)
    ∧ ((storedAt st id).experience = none → (getProfile st id).experience = 0)
    ∧ ((storedAt st id).wealth = none → (getProfile st id).wealth = 0)
    ∧ ((storedAt st id).presence = none → (getProfile st id).presence = "offline")
    ∧ ((storedAt st id).inventory = none → (getProfile st id).inventory = [])
    ∧ ((storedAt st id).effects = none → (getProfile st id).effects = [])
    ∧ ((storedAt st id).weapon = none → (getProfile st id).equipment.weapon = none)
    ∧ (getProfile st id).type = "Player" := by
  refine ⟨rfl, ?_, ?_, ?_, ?_, ?_, ?_, ?_, ?_, rfl⟩ <;>
    intro h <;>
    simp only [storedAt] at h <;>
    simp [getProfile, hydrate, jsNumOr, jsStrOr, h]

/-- C4 witness: hydrating a player that has no stored data at all yields
the fully defaulted profile. -/
theorem c4_hydration_witness :
    (getProfile emptyState "alice").health = 100
    ∧ (getProfile emptyState "alice").wealth = 0
    ∧ (getProfile emptyState "alice").presence = "offline"
    ∧ (getProfile emptyState "alice").equipment.weapon = none := by
  obtain ⟨-, h1, -, -, h4, h5, -, -, h9, -⟩ := c4_hydration emptyState "alice"
  exact ⟨h1 rfl, h4 rfl, h5 rfl, h9 rfl⟩

/-- A stored player serving a cooldown of 50 while online, used to
evaluate the round computation. -/
def stateC5 : State :=
  { players := fun k =>
      if k = "local~1users~1alice" then
        some { id := some "local/users/alice"
               name := some "alice"
               presence := some "online"
               wealth := some (.num 0)
               cooldown := some (.num 50) }
      else none
    commits := 0 }

/-- C5 evaluation at the failing input: with a stored cooldown of 50, an
online presence and the default per-tick capital constant of 10, the
claim requires the stored cooldown to become 40 after the round.  In the
code, hydration drops the `cooldown` field, so the fetched profile has no
cooldown, the guarded decrement never fires, and the reward write-back
stores the whole profile without a cooldown field — erasing the stored
value instead of decrementing it. -/
theorem c5_cooldown_not_decremented :
    (stateC5.players "local~1users~1alice").bind Stored.cooldown = some (.num 50)
    ∧ (getProfile stateC5 "local/users/alice").cooldown = none
    ∧ ((computeRound (fun _ => 0) (mkConfig {}) none stateC5
        "local/users/alice").1.players "local~1users~1alice").bind Stored.cooldown = none
    ∧ ((computeRound (fun _ => 0) (mkConfig {}) none stateC5
        "local/users/alice").1.players "local~1users~1alice").bind Stored.cooldown
      ≠ some (.num 40) := by
  with_unfolding_all decide

/-- Two stored players used to evaluate the transfer handler on a
non-numeric amount token. -/
def stateC2 : State :=
  { players := fun k =>
      if k = "local~1users~1alice" then some { wealth := some (.num 100) }
      else if k = "local~1users~1bob" then some { wealth := some (.num 5) }
      else none
    commits := 0 }

/-- C2 evaluation at the failing input: the amount token `abc` parses to
`NaN`, the only numeric guard (`parseInt(actor.wealth - amount) < 0`) is
false on `NaN`, and the handler proceeds: it registers both profiles,
applies the two-operation patch writing `NaN` into both stored wealths,
commits (three commits in total), and returns the success message —
instead of rejecting with a syntax error and leaving the state
unchanged. -/
theorem c2_nan_amount_transfer_mutates :
    (handleTransferRequest stateC2 (some "local/users/alice")
      (some "!transfer abc bob") "local").1 = TransferOutcome.success
    ∧ ((handleTransferRequest stateC2 (some "local/users/alice")
        (some "!transfer abc bob") "local").2.players "local~1users~1alice").bind
        Stored.wealth = some JsNum.nan
    ∧ ((handleTransferRequest stateC2 (some "local/users/alice")
        (some "!transfer abc bob") "local").2.players "local~1users~1bob").bind
        Stored.wealth = some JsNum.nan
    ∧ (handleTransferRequest stateC2 (some "local/users/alice")
        (some "!transfer abc bob") "local").2.commits = 3 := by
  with_unfolding_all decide

/-- A stored player with wealth 100, used to evaluate a self-transfer
issued under a bare (single-segment) actor id. -/
def stateC3 : State :=
  { players := fun k =>
      if k = "local~1users~1alice" then some { wealth := some (.num 100) }
      else none
    commits := 0 }

/-- C3 evaluation at the failing input: the self-transfer guard compares
`message.actor.split('/')[2]` with the target token, and for the bare
actor id `alice` the third segment is `undefined`, so the guard does not
fire even though actor and target both canonicalize to
`local/users/alice`.  The handler registers the player, applies both
wealth operations to the same stored entry in order (100-50, then
100+50), commits, and returns the success message — the self-transfer
mutates the state and mints 50 wealth instead of being rejected before
any registration, patch, or commit. -/
theorem c3_self_transfer_not_rejected :
    (handleTransferRequest stateC3 (some "alice")
      (some "!transfer 50 alice") "local").1 = TransferOutcome.success
    ∧ ((handleTransferRequest stateC3 (some "alice")
        (some "!transfer 50 alice") "local").2.players "local~1users~1alice").bind
        Stored.wealth = some (.num 150)
    ∧ (handleTransferRequest stateC3 (some "alice")
        (some "!transfer 50 alice") "local").2.commits = 3 := by
  with_unfolding_all decide

/-- A stored player with wealth 10, used to evaluate a transfer of a
negative amount to an unstored target. -/
def stateC1 : State :=
  { players := fun k =>
      if k = "local~1users~1alice" then some { wealth := some (.num 10) }
      else none
    commits := 0 }

/-- C1 counterexample: a transfer of amount `-5` from a player with
wealth 10 to a player with wealth 0 passes every guard
(`parseInt(10 - (-5)) = 15 ≥ 0`), succeeds, and leaves the target's
stored balance at `-5`, which is negative — refuting the claim that for
every successful transfer neither resulting balance is negative (the
balance sum 15 + (-5) = 10 + 0 is still conserved here). -/
theorem c1_counterexample :
    (handleTransferRequest stateC1 (some "local/users/alice")
      (some "!transfer -5 bob") "local").1 = TransferOutcome.success
    ∧ ((handleTransferRequest stateC1 (some "local/users/alice")
        (some "!transfer -5 bob") "local").2.players "local~1users~1bob").bind
        Stored.wealth = some (.num (-5))
    ∧ (JsNum.num (-5)).ltQ 0 = true
    ∧ ((handleTransferRequest stateC1 (some "local/users/alice")
        (some "!transfer -5 bob") "local").2.players "local~1users~1alice").bind
        Stored.wealth = some (.num 15) := by
  with_unfolding_all decide

/-- The announcement condition of the claim: the pre-violation cooldown
was below 100, an absent cooldown counting as below 100. -/
def cooldownBelow100 : Option JsNum → Bool
  | none => true
  | some (.num q) => decide (q < 100)
  | some .nan => false

theorem notify_eq_below100 (c : Option JsNum) (h : c ≠ some JsNum.nan) :
    (!(jsPropTruthy c) || jsPropLtQ c 100) = cooldownBelow100 c := by
  match c with
  | none => rfl
  | some .nan => exact absurd rfl h
  | some (.num q) =>
    by_cases hq : q = 0
    · subst hq
      simp [jsPropTruthy, jsPropLtQ, JsNum.truthy, JsNum.ltQ, cooldownBelow100]
    · simp [jsPropTruthy, jsPropLtQ, JsNum.truthy, JsNum.ltQ, cooldownBelow100, hq]

/-- C6 counterexample: penalizing a player that has no stored entry under
its canonical path (here a freshly hydrated first-time chatter, whose
cooldown is absent and therefore below 100) makes the first `replace`
operation raise, so nothing is patched, nothing is committed and no
announcement fires — refuting the claim that penalize sets
`cooldown = 1000`, halves the wealth and announces for every player. -/
theorem c6_counterexample :
    penalize (getProfile emptyState "local/users/ghost") emptyState = .error ()
    ∧ (getProfile emptyState "local/users/ghost").cooldown = none
    ∧ cooldownBelow100 (getProfile emptyState "local/users/ghost").cooldown = true := by
  refine ⟨rfl, rfl, rfl⟩

/-- C6 (amended): for every player whose canonical entry exists in the
players subtree (and whose cooldown property is absent or numeric, the
only shapes the engine produces), penalize replaces the stored cooldown
with 1000 and the stored wealth with half the player's wealth in one
two-operation patch, commits once, and fires the public announcement if
and only if the pre-violation cooldown was below 100 (absent counting as
below 100). -/
theorem c6_penalize (p : Profile) (st : State) (s : Stored)
    (hs : st.players (pointerEscape p.id) = some s)
    (hnan : p.cooldown ≠ some JsNum.nan) :
    penalize p st = .ok
      ({ players := updateMap st.players (pointerEscape p.id)
           (some { s with cooldown := some (.num 1000)
                          wealth := some (.num (p.wealth * (1 / 2))) })
         commits := st.commits + 1 },
       if cooldownBelow100 p.cooldown then [peaceAnnouncement p.name] else []) := by
  simp only [penalize, hs, State.commit, notify_eq_below100 p.cooldown hnan]

/-- C6 witness: a stored player with cooldown 150 (not below 100) and
wealth 7 is penalized: cooldown becomes 1000, wealth becomes 7/2, one
commit happens, and no announcement fires. -/
theorem c6_penalize_witness :
    penalize
      { id := "local/users/carol", name := some "carol", type := "Player",
        health := 100, stamina := 100, experience := 0, equipment := {},
        inventory := [], presence := "online", effects := [], wealth := 7,
        cooldown := some (.num 150) }
      { players := fun k =>
          if k = "local~1users~1carol" then some { wealth := some (.num 7) } else none
        commits := 0 }
    = .ok
      ({ players := updateMap
           (fun k =>
             if k = "local~1users~1carol" then some { wealth := some (.num 7) } else none)
           (pointerEscape "local/users/carol")
           (some { wealth := some (.num ((7 : ℚ) * (1 / 2)))
                   cooldown := some (.num 1000) })
         commits := 1 },
       if cooldownBelow100 (some (.num 150)) then [peaceAnnouncement (some "carol")] else []) :=
  c6_penalize
    { id := "local/users/carol", name := some "carol", type := "Player",
      health := 100, stamina := 100, experience := 0, equipment := {},
      inventory := [], presence := "online", effects := [], wealth := 7,
      cooldown := some (.num 150) }
    { players := fun k =>
        if k = "local~1users~1carol" then some { wealth := some (.num 7) } else none
      commits := 0 }
    { wealth := some (.num 7) }
    (by with_unfolding_all decide)
    (by decide)

theorem scanMembers_agent_mem (nm : String) (svc : Service) (st : State)
    (ms : List String) (h : svc.agentId ∈ ms) :
    scanMembers nm svc st ms = none := by
  induction ms generalizing st with
  | nil => cases h
  | cons m rest ih =>
    by_cases hm : m = svc.agentId
    · simp [scanMembers, hm]
    · have hrest : svc.agentId ∈ rest := by
        rcases List.mem_cons.mp h with h1 | h1
        · exact absurd h1.symm hm
        · exact h1
      simp only [scanMembers, hm, if_false]
      cases (registerPlayer st (getProfile st (nm ++ "/users/" ++ m))).2 with
      | none => simp [ih _ hrest]
      | some player => simp [ih _ hrest]

theorem scanChannels_agent_mem (nm : String) (svc : Service)
    (channels : List String) (st : State) (chs : List String)
    (h : ∃ ch ∈ chs, ∃ ms, svc.members ch = some ms ∧ svc.agentId ∈ ms) :
    scanChannels nm svc channels st chs = none := by
  induction chs generalizing st with
  | nil => simp at h
  | cons ch rest ih =>
    obtain ⟨ch1, hch1, ms1, hms1, hmem1⟩ := h
    rcases List.mem_cons.mp hch1 with he | he
    · subst he
      simp [scanChannels, hms1, scanMembers_agent_mem nm svc st ms1 hmem1]
    · simp only [scanChannels]
      cases hm : svc.members ch with
      | none => exact ih _ ⟨ch1, he, ms1, hms1, hmem1⟩
      | some ms =>
        cases hsm : scanMembers nm svc st ms with
        | none => simp [hsm]
        | some r =>
          obtain ⟨st1, ps⟩ := r
          simp [hsm, ih st1 ⟨ch1, he, ms1, hms1, hmem1⟩]

/-- C9: whenever the agent's own identity appears among the fetched
members of any monitored channel of any known service, the player
enumeration `_getPlayers` hits its bare `return;` and yields no player
list at all (`none`, i.e. `undefined`), so every remaining member of
every channel is omitted from the enumeration; `_getActivePlayers` then
raises on filtering the undefined list (the error `tick` catches). -/
theorem c9_agent_short_circuits (services : List (String × Service))
    (channels : List String) (st : State)
    (h : ∃ p ∈ services, ∃ ch ∈ channels, ∃ ms,
          p.2.members ch = some ms ∧ p.2.agentId ∈ ms) :
    getPlayers channels st services = none
    ∧ getActivePlayers services channels st = .error () := by
  have hmain : getPlayers channels st services = none := by
    induction services generalizing st with
    | nil => simp at h
    | cons hd rest ih =>
      obtain ⟨p1, hp1, hw⟩ := h
      rcases List.mem_cons.mp hp1 with he | he
      · subst he
        obtain ⟨nm, svc⟩ := p1
        simp [getPlayers, scanChannels_agent_mem nm svc channels st channels hw]
      · obtain ⟨nm, svc⟩ := hd
        simp only [getPlayers]
        cases hsc : scanChannels nm svc channels st channels with
        | none => simp [hsc]
        | some r =>
          obtain ⟨st1, ps⟩ := r
          simp [hsc, ih st1 ⟨p1, he, hw⟩]
  refine ⟨hmain, ?_⟩
  simp [getActivePlayers, hmain]

/-- C9 witness: a single service whose channel member list contains the
agent id (between two ordinary members) makes the enumeration yield no
list and the active-player fetch fail. -/
theorem c9_agent_short_circuits_witness :
    getPlayers ["idlerpg"] emptyState
      [("local",
        { agentId := "bot"
          members := fun ch => if ch = "idlerpg" then some ["alice", "bot", "bob"] else none
          presence := fun _ => some "online" })] = none
    ∧ getActivePlayers
        [("local",
          { agentId := "bot"
            members := fun ch => if ch = "idlerpg" then some ["alice", "bot", "bob"] else none
            presence := fun _ => some "online" })] ["idlerpg"] emptyState = .error () :=
  c9_agent_short_circuits _ _ _
    ⟨("local",
      { agentId := "bot"
        members := fun ch => if ch = "idlerpg" then some ["alice", "bot", "bob"] else none
        presence := fun _ => some "online" }),
      by simp, "idlerpg", by simp, ["alice", "bot", "bob"], by simp, by simp⟩

/-- C1 (amended): for every transfer that returns the success message, in
which the amount token parses to an integer `a`, actor and target
hydrate to integer wealths `n` and `m`, and the two profiles register
back to their own (distinct) canonical paths: the committed balances are
`n - a` and `m + a`, so the wealth sum is conserved and the actor's
balance is nonnegative; the target's balance is nonnegative provided the
amount and the target's prior wealth are nonnegative (a negative amount
drives it negative, see the counterexample). -/
theorem c1_transfer_conservation
    (st : State) (act objStr orig tokAmt tokTgt : String) (A T : Profile)
    (n m a : ℤ)
    (htokA : (jsSplit objStr ' ').getD 1 "" = tokAmt)
    (htokT : (jsSplit objStr ' ').getD 2 "" = tokTgt)
    (hA : A = getProfile st act)
    (hT : T = getProfile st (transferTargetPath orig tokTgt))
    (hn : A.wealth = (n : ℚ))
    (hm : T.wealth = (m : ℚ))
    (ha : parseIntStr tokAmt = JsNum.num ((a : ℤ) : ℚ))
    (hA0 : A.id ≠ "")
    (hT0 : T.id ≠ "")
    (hRegA : registrationId A.id = A.id)
    (hRegT : registrationId T.id = T.id)
    (hNe : pointerEscape A.id ≠ pointerEscape T.id)
    (hS : (handleTransferRequest st (some act) (some objStr) orig).1
      = TransferOutcome.success) :
    ((handleTransferRequest st (some act) (some objStr) orig).2.players
        (pointerEscape A.id)).bind Stored.wealth = some (.num ((n : ℚ) - (a : ℚ)))
    ∧ ((handleTransferRequest st (some act) (some objStr) orig).2.players
        (pointerEscape T.id)).bind Stored.wealth = some (.num ((m : ℚ) + (a : ℚ)))
    ∧ ((n : ℚ) - (a : ℚ)) + ((m : ℚ) + (a : ℚ)) = (n : ℚ) + (m : ℚ)
    ∧ 0 ≤ (n : ℚ) - (a : ℚ)
    ∧ (0 ≤ a → 0 ≤ m → 0 ≤ (m : ℚ) + (a : ℚ)) := by
  subst hA hT
  revert hS
  simp only [handleTransferRequest, Option.getD_some]
  rw [htokA, htokT]
  split
  · intro hS; simp at hS
  split
  · intro hS; simp at hS
  split
  · intro hS; simp at hS
  split
  · intro hS; simp at hS
  split
  · intro hS; simp at hS
  split
  · intro hS; simp at hS
  split
  · intro hS; simp at hS
  intro _
  rename_i hobj hact hlen hself hw0 hguard hpatch hS2
  have hNe' : pointerEscape (getProfile st (transferTargetPath orig tokTgt)).id
      ≠ pointerEscape (getProfile st act).id := Ne.symm hNe
  rw [registerPlayer_state st _ hA0 hRegA, registerPlayer_state _ _ hT0 hRegT]
  have hsub : ((n : ℚ) - (a : ℚ)) = ((n - a : ℤ) : ℚ) := by push_cast; ring
  have hadd : ((m : ℚ) + (a : ℚ)) = ((m + a : ℤ) : ℚ) := by push_cast; ring
  refine ⟨?_, ?_, by ring, ?_, ?_⟩
  · simp [applyWealthOps, updateMap, hNe, hNe', State.commit, Profile.toStored,
      hn, ha, JsNum.sub, JsNum.parseIntOf, jsTrunc_intCast]
  · simp [applyWealthOps, updateMap, hNe, hNe', State.commit, Profile.toStored,
      hm, ha, JsNum.sub, JsNum.add, JsNum.parseIntOf, jsTrunc_intCast]
  · rw [hn, ha] at hguard
    simp only [JsNum.sub, JsNum.parseIntOf, JsNum.ltQ, decide_eq_true_eq] at hguard
    rw [hsub] at hguard ⊢
    rw [jsTrunc_intCast] at hguard
    exact not_lt.mp hguard
  · intro h1 h2
    rw [hadd]
    have h3 : 0 ≤ m + a := add_nonneg h2 h1
    exact_mod_cast h3

/-- A stored player with wealth 100, used as the transfer-conservation
witness actor. -/
def stateC1W : State :=
  { players := fun k =>
      if k = "local~1users~1alice" then some { wealth := some (.num 100) }
      else none
    commits := 0 }

/-- C1 witness: a successful transfer of 30 from wealth 100 to an empty
account commits balances 70 and 30. -/
theorem c1_transfer_conservation_witness :
    ((handleTransferRequest stateC1W (some "local/users/alice")
        (some "!transfer 30 bob") "local").2.players
        (pointerEscape (getProfile stateC1W "local/users/alice").id)).bind
      Stored.wealth = some (.num (((100 : ℤ) : ℚ) - ((30 : ℤ) : ℚ)))
    ∧ ((handleTransferRequest stateC1W (some "local/users/alice")
        (some "!transfer 30 bob") "local").2.players
        (pointerEscape (getProfile stateC1W
          (transferTargetPath "local" "bob")).id)).bind
      Stored.wealth = some (.num (((0 : ℤ) : ℚ) + ((30 : ℤ) : ℚ))) := by
  have h := c1_transfer_conservation stateC1W "local/users/alice"
    "!transfer 30 bob" "local" "30" "bob"
    (getProfile stateC1W "local/users/alice")
    (getProfile stateC1W (transferTargetPath "local" "bob"))
    100 0 30
    (by with_unfolding_all decide)
    (by with_unfolding_all decide)
    rfl rfl
    (by with_unfolding_all decide)
    (by with_unfolding_all decide)
    (by with_unfolding_all decide)
    (by with_unfolding_all decide)
    (by with_unfolding_all decide)
    (by with_unfolding_all decide)
    (by with_unfolding_all decide)
    (by with_unfolding_all decide)
    (by with_unfolding_all decide)
  exact ⟨h.1, h.2.1⟩
